import Mathlib

/-!
Verification of the access-control loop (`Automated_Access.ino`).

The embedding models the sketch's `loop()` body as a pure function from the
pre-iteration people count and the iteration's inputs (one ultrasonic reading,
one sequence of card-poll results inside the 8-second wait window) to the
post-iteration people count and the ordered list of observable effects
(serial lines, bluetooth lines, buzzer writes, tones, delays, card halt).

Distances and heights are modelled as `Int`: the sketch stores them in
`float`, but every value involved is an integer count of centimetres
(`sonar.ping_cm()` returns whole centimetres), on which float arithmetic
is exact.
-/

namespace AccessControl

/-- `MAX_DISTANCE` in the sketch (upper bound used in the height range test). -/
def MAX_DISTANCE : Int := 400

/-- `const int SENSOR_HEIGHT = 208;` -/
def SENSOR_HEIGHT : Int := 208

/-- `const int MIN_HEIGHT_FOR_ACCESS = 100;` -/
def MIN_HEIGHT_FOR_ACCESS : Int := 100

/-- `struct User { String name; String uid; };` -/
structure User where
  name : String
  uid : String
deriving DecidableEq, Repr

/-- The fixed `authorizedUsers[]` table, in source order. -/
def authorizedUsers : List User :=
  [ ⟨"Abdalla Nassar", "4 4a f5 6a 2c 59 80"⟩,
    ⟨"Nafea", "fe 8a 2 bf"⟩,
    ⟨"samy", "9F 30 19 89"⟩ ]

/-- Observable effects of one loop iteration, in execution order. -/
inductive Effect where
  | serialPrintln (s : String)
  | serialPrint (s : String)
  | serialPrintlnNum (n : Int)
  | bluetoothPrintln (s : String)
  | bluetoothPrint (s : String)
  | bluetoothPrintlnNum (n : Int)
  | buzzerWrite (high : Bool)
  | buzzerTone (freqHz durMs : Nat)
  | delay (ms : Nat)
  | halt
deriving DecidableEq, Repr

/-- Hex digit character, lowercase, as produced by the Arduino `String(v, HEX)`
conversion (`utoa` with base 16). -/
def hexDigitChar (n : Nat) : Char :=
  if n < 10 then Char.ofNat (48 + n) else Char.ofNat (87 + n)

/-- Fuel-indexed hex conversion loop of `utoa`: emits the base-16 digits of `n`
most significant first, stopping at `n = 0`. -/
def natToHexAux (fuel : Nat) (n : Nat) : List Char :=
  match fuel with
  | 0 => []
  | fuel + 1 =>
    if n = 0 then [] else natToHexAux fuel (n / 16) ++ [hexDigitChar (n % 16)]

/-- `String(v, HEX)`: hexadecimal rendering with no leading-zero padding
(`"0"` for zero), lowercase digits. `fuel = n` always suffices since a number
has no more base-16 digits than its own value when positive. -/
def byteHex (b : Nat) : String :=
  if b = 0 then "0" else String.mk (natToHexAux b b)

/-- The UID-string construction loop (lines 108–113): each byte rendered in
hex, a single space after every byte except the last. -/
def renderUID : List Nat → String
  | [] => ""
  | [b] => byteHex b
  | b :: c :: rest => byteHex b ++ " " ++ renderUID (c :: rest)

/-- The matching loop (lines 120–126): scan the table in order, exact string
equality against each entry's `uid`, first match wins, `none` if no entry
matches. -/
def findUser : List User → String → Option User
  | [], _ => none
  | u :: rest, s => if u.uid = s then some u else findUser rest s

/-- Effects of `soundBuzzerFail()`: `toneAC(BUZZER_PIN, 1000, 200); delay(200);` -/
def failBuzzEffects : List Effect :=
  [.buzzerTone 1000 200, .delay 200]

/-- Processing of one successful card read (lines 104–147): render the UID,
print it, match against the table, then either the granted sequence
(increment count, welcome and count lines on serial then bluetooth, buzzer
high / 600 ms / low, 3000 ms cooldown) or the rejected sequence
("Access denied" on serial and bluetooth, fail tone, 1000 ms hold). -/
def processCard (c : Int) (bytes : List Nat) : Int × List Effect :=
  let uidString := renderUID bytes
  match findUser authorizedUsers uidString with
  | some u =>
    (c + 1,
      [.serialPrintln uidString,
       .serialPrintln ("Welcome " ++ u.name),
       .serialPrint "Count of people: ",
       .serialPrintlnNum (c + 1),
       .bluetoothPrintln ("Welcome " ++ u.name),
       .bluetoothPrint "Count of people: ",
       .bluetoothPrintlnNum (c + 1),
       .buzzerWrite true,
       .delay 600,
       .buzzerWrite false,
       .delay 3000])
  | none =>
    (c,
      [.serialPrintln uidString,
       .serialPrintln "Access denied",
       .bluetoothPrintln "Access denied"]
      ++ failBuzzEffects ++ [.delay 1000])

/-- One poll of the card reader inside the wait window:
`some bytes` when `PICC_IsNewCardPresent() && PICC_ReadCardSerial()` both
succeed (yielding the card's raw bytes), `none` otherwise. -/
abbrev Poll := Option (List Nat)

/-- The bounded card-wait `while` loop (lines 103–149), with the 8000 ms
window abstracted as a finite list of poll results: unsuccessful polls are
skipped, the first successful read is processed and the loop breaks
(both the granted and the rejected branch end in `break`), and window
exhaustion with no successful read produces nothing. -/
def cardWindow (c : Int) : List Poll → Int × List Effect
  | [] => (c, [])
  | none :: rest => cardWindow c rest
  | some bytes :: _ => processCard c bytes

/-- The height classification implicit in the nested conditionals of
lines 91–97 and 151. -/
inductive HeightClass where
  | noSubject
  | tooShort
  | inRange
  | atThreshold
deriving DecidableEq, Repr

/-- Classification of one raw distance reading `d` (lines 91, 93, 97):
`height = SENSOR_HEIGHT - d`; inside `0 < height < 400` the branches are
`height < 100` (too short), `height > 100` (in range), and the untaken
`height = 100` gap; outside it the `else` branch (no subject). -/
def classify (d : Int) : HeightClass :=
  let height := SENSOR_HEIGHT - d
  if height > 0 ∧ height < MAX_DISTANCE then
    if height < MIN_HEIGHT_FOR_ACCESS then .tooShort
    else if height > MIN_HEIGHT_FOR_ACCESS then .inRange
    else .atThreshold
  else .noSubject

/-- One full iteration of `loop()` (lines 81–158): measure, print height and
distance, branch on the classification, and unconditionally halt the card
session at the end. -/
def loopIter (c : Int) (d : Int) (polls : List Poll) : Int × List Effect :=
  let height := SENSOR_HEIGHT - d
  let pre : List Effect := [.serialPrintlnNum height, .serialPrintlnNum d]
  match classify d with
  | .tooShort =>
    (c, pre ++
      [.serialPrintln "Entry denied: Person is too short.",
       .bluetoothPrintln "Entry denied: Person is too short."]
      ++ failBuzzEffects ++ [.halt])
  | .inRange =>
    let r := cardWindow c polls
    (r.1, pre ++
      [.serialPrintln "Please present NFC card for entry.",
       .bluetoothPrintln "Please present NFC card for entry."]
      ++ r.2 ++ [.halt])
  | .atThreshold => (c, pre ++ [.halt])
  | .noSubject =>
    (c, pre ++
      [.serialPrintln "No one under the sensor."]
      ++ failBuzzEffects ++ [.delay 1500, .halt])

/-- `int peopleCount = 0;` (line 53): the counter's value at startup. -/
def peopleCountInit : Int := 0

/-- Running the loop over a finite trace of iteration inputs, threading the
people count. -/
def runLoop (c : Int) : List (Int × List Poll) → Int
  | [] => c
  | (d, polls) :: rest => runLoop (loopIter c d polls).1 rest

/-- Whether the card-wait window over these polls ends in a granted outcome:
the first successful read matches some authorized user. -/
def windowGrants : List Poll → Bool
  | [] => false
  | none :: rest => windowGrants rest
  | some bytes :: _ => (findUser authorizedUsers (renderUID bytes)).isSome

/-- Characters allowed in a rendered identifier: lowercase hex digits and the
space separator. -/
def lowerHexSpace (c : Char) : Bool :=
  "0123456789abcdef ".toList.contains c

/-- An effect that announces an access outcome: the serial "Access denied"
line of a rejection, or the buzzer-high drive that opens the Success pattern
of a grant (the grant path is the only writer of a high level). -/
def isOutcomeFeedback : Effect → Bool
  | .serialPrintln s => s = "Access denied"
  | .buzzerWrite high => high
  | _ => false

/-- Rendering the UID the way the spec words it: hex tokens joined by a
single space. Used to compare the source's append loop against the spec. -/
def specRenderUID (bytes : List Nat) : String :=
  String.intercalate " " (bytes.map byteHex)

end AccessControl

namespace AccessControl

/-! ### Helper lemmas -/

theorem findUser_eq_uid {table : List User} {s : String} {u : User}
    (h : findUser table s = some u) : u.uid = s := by
  induction table with
  | nil => simp [findUser] at h
  | cons v rest ih =>
    rw [findUser] at h
    split at h
    · cases h
      assumption
    · exact ih h

theorem findUser_none {table : List User} {s : String}
    (h : ∀ u ∈ table, u.uid ≠ s) : findUser table s = none := by
  induction table with
  | nil => rfl
  | cons v rest ih =>
    rw [findUser, if_neg (h v (by simp))]
    exact ih fun u hu => h u (by simp [hu])

theorem processCard_fst (c : Int) (bytes : List Nat) :
    (processCard c bytes).1 =
      if (findUser authorizedUsers (renderUID bytes)).isSome then c + 1 else c := by
  cases h : findUser authorizedUsers (renderUID bytes) <;> simp [processCard, h]

theorem cardWindow_fst (c : Int) (polls : List Poll) :
    (cardWindow c polls).1 = if windowGrants polls then c + 1 else c := by
  induction polls with
  | nil => rfl
  | cons p rest ih =>
    cases p with
    | none => simpa [cardWindow, windowGrants] using ih
    | some bytes => simp [cardWindow, windowGrants, processCard_fst]

theorem cardWindow_allNone (c : Int) (polls : List Poll)
    (h : ∀ p ∈ polls, p = none) : cardWindow c polls = (c, []) := by
  induction polls with
  | nil => rfl
  | cons p rest ih =>
    have hp : p = none := h p (by simp)
    subst hp
    rw [cardWindow]
    exact ih fun q hq => h q (by simp [hq])

theorem classify_noSubject {d : Int}
    (h : SENSOR_HEIGHT - d ≤ 0 ∨ MAX_DISTANCE ≤ SENSOR_HEIGHT - d) :
    classify d = HeightClass.noSubject := by
  simp only [SENSOR_HEIGHT, MAX_DISTANCE] at h
  simp only [classify, SENSOR_HEIGHT, MAX_DISTANCE, MIN_HEIGHT_FOR_ACCESS]
  split_ifs <;> first | rfl | omega

theorem classify_tooShort {d : Int} (h1 : 0 < SENSOR_HEIGHT - d)
    (h2 : SENSOR_HEIGHT - d < MIN_HEIGHT_FOR_ACCESS) :
    classify d = HeightClass.tooShort := by
  simp only [SENSOR_HEIGHT, MIN_HEIGHT_FOR_ACCESS] at h1 h2
  simp only [classify, SENSOR_HEIGHT, MAX_DISTANCE, MIN_HEIGHT_FOR_ACCESS]
  split_ifs <;> first | rfl | omega

theorem classify_inRange {d : Int} (h1 : MIN_HEIGHT_FOR_ACCESS < SENSOR_HEIGHT - d)
    (h2 : SENSOR_HEIGHT - d < MAX_DISTANCE) :
    classify d = HeightClass.inRange := by
  simp only [SENSOR_HEIGHT, MIN_HEIGHT_FOR_ACCESS, MAX_DISTANCE] at h1 h2
  simp only [classify, SENSOR_HEIGHT, MAX_DISTANCE, MIN_HEIGHT_FOR_ACCESS]
  split_ifs <;> first | rfl | omega

theorem classify_atThreshold {d : Int} (h : SENSOR_HEIGHT - d = MIN_HEIGHT_FOR_ACCESS) :
    classify d = HeightClass.atThreshold := by
  simp only [SENSOR_HEIGHT, MIN_HEIGHT_FOR_ACCESS] at h
  simp only [classify, SENSOR_HEIGHT, MAX_DISTANCE, MIN_HEIGHT_FOR_ACCESS]
  split_ifs <;> first | rfl | omega

theorem loopIter_fst (c d : Int) (polls : List Poll) :
    (loopIter c d polls).1 =
      if classify d = HeightClass.inRange ∧ windowGrants polls = true
      then c + 1 else c := by
  cases hcl : classify d <;> simp [loopIter, hcl, cardWindow_fst]

end AccessControl

namespace AccessControl

theorem intercalate_go_data (s : String) (as : List String) :
    ∀ acc : String, (String.intercalate.go acc s as).data =
      acc.data ++ (as.map fun a => s.data ++ a.data).flatten := by
  induction as with
  | nil => intro acc; simp [String.intercalate.go]
  | cons a as ih =>
    intro acc
    simp [String.intercalate.go, ih]

theorem intercalate_single (s x : String) : String.intercalate s [x] = x := by
  apply String.ext
  simp [String.intercalate, intercalate_go_data]

theorem intercalate_cons_cons (s x y : String) (rest : List String) :
    String.intercalate s (x :: y :: rest) =
      x ++ s ++ String.intercalate s (y :: rest) := by
  apply String.ext
  simp [String.intercalate, intercalate_go_data]

theorem renderUID_eq_spec (bytes : List Nat) : renderUID bytes = specRenderUID bytes := by
  induction bytes with
  | nil => rfl
  | cons b rest ih =>
    cases rest with
    | nil => simp [renderUID, specRenderUID, intercalate_single]
    | cons c r2 =>
      rw [renderUID, ih]
      simp [specRenderUID, intercalate_cons_cons]

theorem hexDigitChar_lowerHex : ∀ m, m < 16 → lowerHexSpace (hexDigitChar m) = true := by
  decide

theorem natToHexAux_chars :
    ∀ (fuel n : Nat), ∀ ch ∈ natToHexAux fuel n, lowerHexSpace ch = true := by
  intro fuel
  induction fuel with
  | zero => intro n ch h; simp [natToHexAux] at h
  | succ fuel ih =>
    intro n ch h
    rw [natToHexAux] at h
    split at h
    · simp at h
    · rcases List.mem_append.1 h with h1 | h2
      · exact ih _ ch h1
      · have : ch = hexDigitChar (n % 16) := by simpa using h2
        subst this
        exact hexDigitChar_lowerHex _ (Nat.mod_lt _ (by omega))

theorem byteHex_chars (b : Nat) : ∀ ch ∈ (byteHex b).data, lowerHexSpace ch = true := by
  intro ch h
  rw [byteHex] at h
  split at h
  · have : ch = '0' := by simpa using h
    subst this
    decide
  · exact natToHexAux_chars b b ch h

theorem renderUID_chars (bytes : List Nat) :
    ∀ ch ∈ (renderUID bytes).data, lowerHexSpace ch = true := by
  induction bytes with
  | nil => intro ch h; simp [renderUID] at h
  | cons b rest ih =>
    cases rest with
    | nil =>
      intro ch h
      rw [renderUID] at h
      exact byteHex_chars b ch h
    | cons c r2 =>
      intro ch h
      rw [renderUID] at h
      rw [String.data_append, String.data_append] at h
      rcases List.mem_append.1 h with h1 | h2
      · rcases List.mem_append.1 h1 with h3 | h4
        · exact byteHex_chars b ch h3
        · have : ch = ' ' := by simpa using h4
          subst this
          decide
      · exact ih ch h2

theorem renderUID_ne_of_badChar (bytes : List Nat) (t : String) (ch : Char)
    (hmem : ch ∈ t.data) (hbad : lowerHexSpace ch = false) :
    renderUID bytes ≠ t := by
  intro h
  have := renderUID_chars bytes ch (h ▸ hmem)
  simp [hbad] at this

theorem welcome_ne_denied (s : String) : ("Welcome " ++ s) ≠ "Access denied" := by
  intro h
  have hd := congrArg String.data h
  rw [String.data_append] at hd
  have h1 : ("Welcome ").data = 'W' :: "elcome ".data := rfl
  have h2 : ("Access denied").data = 'A' :: "ccess denied".data := rfl
  rw [h1, h2, List.cons_append] at hd
  injection hd with h3 h4
  exact absurd h3 (by decide)

end AccessControl

namespace AccessControl

theorem countP_processCard (c : Int) (bytes : List Nat) :
    (processCard c bytes).2.countP isOutcomeFeedback ≤ 1 := by
  have hne : ¬(renderUID bytes = "Access denied") :=
    renderUID_ne_of_badChar bytes "Access denied" 'A' (by decide) (by decide)
  cases h : findUser authorizedUsers (renderUID bytes) with
  | none =>
    simp [processCard, h, failBuzzEffects, List.countP_cons, List.countP_append,
      isOutcomeFeedback, hne]
  | some u =>
    have hwel : ¬("Welcome " ++ u.name = "Access denied") := welcome_ne_denied u.name
    simp [processCard, h, List.countP_cons, isOutcomeFeedback, hne, hwel]

theorem countP_cardWindow (c : Int) (polls : List Poll) :
    (cardWindow c polls).2.countP isOutcomeFeedback ≤ 1 := by
  induction polls with
  | nil => simp [cardWindow]
  | cons p rest ih =>
    cases p with
    | none => simpa [cardWindow] using ih
    | some bytes => simpa [cardWindow] using countP_processCard c bytes

theorem countP_loopIter (c d : Int) (polls : List Poll) :
    (loopIter c d polls).2.countP isOutcomeFeedback ≤ 1 := by
  cases hcl : classify d <;>
    simp [loopIter, hcl, failBuzzEffects, List.countP_append, List.countP_cons,
      isOutcomeFeedback, countP_cardWindow]

end AccessControl

namespace AccessControl

/-! ### Claims -/

/-- C1 (counterexample): the no-echo sentinel reading 0 is NOT classified as
NoSubject by the code: `height = 208 - 0 = 208` satisfies
`0 < height < 400` and `height > 100`, so the reading lands on the
card-prompt (InRange) path. -/
theorem claim_C1_counterexample :
    classify 0 ≠ HeightClass.noSubject ∧ classify 0 = HeightClass.inRange := by
  constructor <;> decide

/-- C1 (amended): every reading whose computed height (`SENSOR_HEIGHT - d`)
is ≤ 0 or ≥ 400 is classified NoSubject, but the no-echo sentinel reading 0
yields height 208 and is classified InRange, not NoSubject. -/
theorem claim_C1 :
    (∀ d : Int, SENSOR_HEIGHT - d ≤ 0 ∨ MAX_DISTANCE ≤ SENSOR_HEIGHT - d →
      classify d = HeightClass.noSubject) ∧
    classify 0 = HeightClass.inRange := by
  exact ⟨fun d h => classify_noSubject h, by decide⟩

/-- C1 (witness): the amended theorem applied at reading 208 (height 0,
NoSubject) together with the sentinel reading 0 (InRange). -/
theorem claim_C1_witness :
    classify 208 = HeightClass.noSubject ∧ classify 0 = HeightClass.inRange :=
  ⟨claim_C1.1 208 (Or.inl (by decide)), claim_C1.2⟩

/-- C2: identifier matching is an in-order scan of the table with exact,
case-sensitive string equality; the first matching entry wins (the duplicate
table `[("A","aa bb"), ("B","aa bb")]` with scan `"aa bb"` names "A"); when
no entry is string-equal, `findUser` yields `none` and the iteration
dispatches the Rejected feedback. -/
theorem claim_C2 :
    findUser [⟨"A", "aa bb"⟩, ⟨"B", "aa bb"⟩] "aa bb" = some ⟨"A", "aa bb"⟩ ∧
    (∀ (u : User) (rest : List User) (s : String), u.uid = s →
      findUser (u :: rest) s = some u) ∧
    (∀ (table : List User) (s : String), (∀ u ∈ table, u.uid ≠ s) →
      findUser table s = none) ∧
    (∀ (c : Int) (bytes : List Nat),
      (∀ u ∈ authorizedUsers, u.uid ≠ renderUID bytes) →
      processCard c bytes =
        (c, [Effect.serialPrintln (renderUID bytes),
             Effect.serialPrintln "Access denied",
             Effect.bluetoothPrintln "Access denied",
             Effect.buzzerTone 1000 200,
             Effect.delay 200,
             Effect.delay 1000])) := by
  refine ⟨by decide, ?_, ?_, ?_⟩
  · intro u rest s h
    simp [findUser, h]
  · intro table s h
    exact findUser_none h
  · intro c bytes h
    simp [processCard, findUser_none h, failBuzzEffects]

/-- C2 (witness): first-match on the duplicate table, a concrete no-match
table, and the Rejected dispatch for the unauthorized scan `"ff ff ff"`
(Scenario 3's card). -/
theorem claim_C2_witness :
    findUser [⟨"A", "aa bb"⟩, ⟨"B", "aa bb"⟩] "aa bb" = some ⟨"A", "aa bb"⟩ ∧
    findUser [⟨"C", "11"⟩] "22" = none ∧
    processCard 0 [255, 255, 255] =
      (0, [Effect.serialPrintln "ff ff ff",
           Effect.serialPrintln "Access denied",
           Effect.bluetoothPrintln "Access denied",
           Effect.buzzerTone 1000 200,
           Effect.delay 200,
           Effect.delay 1000]) := by
  refine ⟨claim_C2.1, claim_C2.2.2.1 [⟨"C", "11"⟩] "22" (by decide), ?_⟩
  have h := claim_C2.2.2.2 0 [255, 255, 255] (by decide)
  exact h.trans (by decide)

/-- C3: the people counter starts at 0, is incremented by exactly 1 on a loop
iteration precisely when the card-wait window ends in a granted outcome
(InRange classification and a matching first card), is unchanged on every
other path (TooShort, NoSubject, threshold fallthrough, Rejected, silent
timeout), and never decreases over any run of the loop. -/
theorem claim_C3 :
    peopleCountInit = 0 ∧
    (∀ (c d : Int) (polls : List Poll),
      ((loopIter c d polls).1 =
        if classify d = HeightClass.inRange ∧ windowGrants polls = true
        then c + 1 else c) ∧
      c ≤ (loopIter c d polls).1) ∧
    (∀ (trace : List (Int × List Poll)) (c : Int), c ≤ runLoop c trace) := by
  refine ⟨rfl, fun c d polls => ⟨loopIter_fst c d polls, ?_⟩, ?_⟩
  · rw [loopIter_fst]
    split <;> omega
  · intro trace
    induction trace with
    | nil => intro c; exact le_refl c
    | cons p rest ih =>
      intro c
      obtain ⟨d, polls⟩ := p
      have h1 : c ≤ (loopIter c d polls).1 := by
        rw [loopIter_fst]
        split <;> omega
      exact le_trans h1 (by simpa [runLoop] using ih (loopIter c d polls).1)

/-- C4: when the card-wait window is entered (InRange) and no poll inside it
ever succeeds, the iteration produces no outcome: the effect trace is exactly
the two diagnostic prints, the two prompt lines, and the final card-session
halt — no Granted or Rejected message, no buzzer action — and the counter is
unchanged. -/
theorem claim_C4 (c d : Int) (polls : List Poll)
    (hnone : ∀ p ∈ polls, p = none)
    (h1 : MIN_HEIGHT_FOR_ACCESS < SENSOR_HEIGHT - d)
    (h2 : SENSOR_HEIGHT - d < MAX_DISTANCE) :
    loopIter c d polls =
      (c, [Effect.serialPrintlnNum (SENSOR_HEIGHT - d),
           Effect.serialPrintlnNum d,
           Effect.serialPrintln "Please present NFC card for entry.",
           Effect.bluetoothPrintln "Please present NFC card for entry.",
           Effect.halt]) := by
  simp [loopIter, classify_inRange h1 h2, cardWindow_allNone c polls hnone]

/-- C4 (witness): reading 90 (height 118, InRange) with a window of two
unsuccessful polls ends with prompt-only effects and an unchanged counter. -/
theorem claim_C4_witness :
    loopIter 0 90 [none, none] =
      (0, [Effect.serialPrintlnNum 118,
           Effect.serialPrintlnNum 90,
           Effect.serialPrintln "Please present NFC card for entry.",
           Effect.bluetoothPrintln "Please present NFC card for entry.",
           Effect.halt]) := by
  have h := claim_C4 0 90 [none, none] (by decide) (by decide) (by decide)
  exact h.trans (by decide)

/-- C5: the UID rendering loop produces exactly the spec's format — the hex
tokens of the bytes joined by single spaces with no trailing separator
(`String.intercalate`) — and a single-digit hex value renders as exactly one
character (no leading-zero padding). -/
theorem claim_C5 :
    (∀ bytes : List Nat, renderUID bytes = specRenderUID bytes) ∧
    (∀ b : Nat, b < 16 → (byteHex b).data = [hexDigitChar b]) := by
  refine ⟨renderUID_eq_spec, ?_⟩
  decide

/-- C5 (witness): the rendering agreement at the bytes of Scenario 2's card,
and the one-character rendering of the single-digit value 10 (`"a"`). -/
theorem claim_C5_witness :
    renderUID [4, 74, 245, 106, 44, 89, 128] =
      specRenderUID [4, 74, 245, 106, 44, 89, 128] ∧
    (byteHex 10).data = [hexDigitChar 10] :=
  ⟨claim_C5.1 [4, 74, 245, 106, 44, 89, 128], claim_C5.2 10 (by decide)⟩

end AccessControl

namespace AccessControl

/-- C6: a reading whose computed height is exactly `MIN_HEIGHT_FOR_ACCESS`
(100) takes neither the TooShort nor the InRange branch: no feedback of any
kind, no card-wait window (any pending card polls are ignored), and the
iteration falls through to the end-of-iteration card-session halt with the
counter unchanged. -/
theorem claim_C6 (c d : Int) (polls : List Poll)
    (h : SENSOR_HEIGHT - d = MIN_HEIGHT_FOR_ACCESS) :
    loopIter c d polls =
      (c, [Effect.serialPrintlnNum (SENSOR_HEIGHT - d),
           Effect.serialPrintlnNum d,
           Effect.halt]) := by
  simp [loopIter, classify_atThreshold h]

/-- C6 (witness): reading 108 (height exactly 100), with a readable card
waiting, still produces only the diagnostic prints and the halt. -/
theorem claim_C6_witness :
    loopIter 0 108 [some [4, 74, 245, 106, 44, 89, 128]] =
      (0, [Effect.serialPrintlnNum 100,
           Effect.serialPrintlnNum 108,
           Effect.halt]) := by
  have h := claim_C6 0 108 [some [4, 74, 245, 106, 44, 89, 128]] (by decide)
  exact h.trans (by decide)

/-- C7: heights strictly between 0 and 100 classify as TooShort, heights
strictly between 100 and 400 classify as InRange; Scenario 1: distance 150
gives height 58, and the iteration dispatches the TooShort feedback with no
card wait entered (polls are irrelevant). -/
theorem claim_C7 :
    (∀ d : Int, 0 < SENSOR_HEIGHT - d → SENSOR_HEIGHT - d < MIN_HEIGHT_FOR_ACCESS →
      classify d = HeightClass.tooShort) ∧
    (∀ d : Int, MIN_HEIGHT_FOR_ACCESS < SENSOR_HEIGHT - d →
      SENSOR_HEIGHT - d < MAX_DISTANCE → classify d = HeightClass.inRange) ∧
    SENSOR_HEIGHT - 150 = 58 ∧
    (∀ (c : Int) (polls : List Poll),
      loopIter c 150 polls =
        (c, [Effect.serialPrintlnNum 58,
             Effect.serialPrintlnNum 150,
             Effect.serialPrintln "Entry denied: Person is too short.",
             Effect.bluetoothPrintln "Entry denied: Person is too short.",
             Effect.buzzerTone 1000 200,
             Effect.delay 200,
             Effect.halt])) := by
  refine ⟨fun d h1 h2 => classify_tooShort h1 h2,
          fun d h1 h2 => classify_inRange h1 h2, by decide, ?_⟩
  intro c polls
  have hcl : classify 150 = HeightClass.tooShort := by decide
  simp [loopIter, hcl, failBuzzEffects,
    show SENSOR_HEIGHT - 150 = (58 : Int) by decide]

/-- C7 (witness): the range lemmas applied at distances 150 (height 58,
TooShort) and 90 (height 118, InRange), and Scenario 1's full iteration. -/
theorem claim_C7_witness :
    classify 150 = HeightClass.tooShort ∧
    classify 90 = HeightClass.inRange ∧
    loopIter 5 150 [] =
      (5, [Effect.serialPrintlnNum 58,
           Effect.serialPrintlnNum 150,
           Effect.serialPrintln "Entry denied: Person is too short.",
           Effect.bluetoothPrintln "Entry denied: Person is too short.",
           Effect.buzzerTone 1000 200,
           Effect.delay 200,
           Effect.halt]) :=
  ⟨claim_C7.1 150 (by decide) (by decide),
   claim_C7.2.1 90 (by decide) (by decide),
   claim_C7.2.2.2 5 []⟩

/-- C8: every loop iteration announces at most one access outcome (the count
of outcome-feedback effects is ≤ 1); inside the wait window the first
successful card read is processed and the window terminates immediately —
later polls are ignored whether the read matched or not — while unsuccessful
polls are skipped. -/
theorem claim_C8 :
    (∀ (c d : Int) (polls : List Poll),
      (loopIter c d polls).2.countP isOutcomeFeedback ≤ 1) ∧
    (∀ (c : Int) (bytes : List Nat) (rest : List Poll),
      cardWindow c (some bytes :: rest) = processCard c bytes) ∧
    (∀ (c : Int) (rest : List Poll),
      cardWindow c (none :: rest) = cardWindow c rest) :=
  ⟨countP_loopIter, fun _ _ _ => rfl, fun _ _ => rfl⟩

/-- C9: a granted outcome performs, in this exact order: counter increment
(visible as `c + 1` in both count lines), the welcome and count lines on the
local log, the same two lines on the wireless transport, buzzer high, a
600 ms hold (within the spec's 500–600 ms range), buzzer low, then the
3000 ms cooldown hold. -/
theorem claim_C9 (c : Int) (bytes : List Nat) (u : User)
    (h : findUser authorizedUsers (renderUID bytes) = some u) :
    processCard c bytes =
      (c + 1,
        [Effect.serialPrintln (renderUID bytes),
         Effect.serialPrintln ("Welcome " ++ u.name),
         Effect.serialPrint "Count of people: ",
         Effect.serialPrintlnNum (c + 1),
         Effect.bluetoothPrintln ("Welcome " ++ u.name),
         Effect.bluetoothPrint "Count of people: ",
         Effect.bluetoothPrintlnNum (c + 1),
         Effect.buzzerWrite true,
         Effect.delay 600,
         Effect.buzzerWrite false,
         Effect.delay 3000]) := by
  simp [processCard, h]

/-- C9 (witness): the granted effect sequence for Scenario 2's card
("Abdalla Nassar"), starting from count 0. -/
theorem claim_C9_witness :
    processCard 0 [4, 74, 245, 106, 44, 89, 128] =
      (1,
        [Effect.serialPrintln "4 4a f5 6a 2c 59 80",
         Effect.serialPrintln "Welcome Abdalla Nassar",
         Effect.serialPrint "Count of people: ",
         Effect.serialPrintlnNum 1,
         Effect.bluetoothPrintln "Welcome Abdalla Nassar",
         Effect.bluetoothPrint "Count of people: ",
         Effect.bluetoothPrintlnNum 1,
         Effect.buzzerWrite true,
         Effect.delay 600,
         Effect.buzzerWrite false,
         Effect.delay 3000]) := by
  have h := claim_C9 0 [4, 74, 245, 106, 44, 89, 128]
    ⟨"Abdalla Nassar", "4 4a f5 6a 2c 59 80"⟩ (by decide)
  exact h.trans (by decide)

/-- C10: every rendered identifier consists only of lowercase hex digits and
spaces; hence no rendered scan equals the uppercase table entry
"9F 30 19 89", and the matcher can never return the "samy" entry. -/
theorem claim_C10 (bytes : List Nat) :
    (∀ ch ∈ (renderUID bytes).data, lowerHexSpace ch = true) ∧
    renderUID bytes ≠ "9F 30 19 89" ∧
    (∀ u : User, findUser authorizedUsers (renderUID bytes) = some u →
      u ≠ ⟨"samy", "9F 30 19 89"⟩) := by
  refine ⟨renderUID_chars bytes,
          renderUID_ne_of_badChar bytes "9F 30 19 89" 'F' (by decide) (by decide), ?_⟩
  intro u hu hequ
  have huid := findUser_eq_uid hu
  rw [hequ] at huid
  exact renderUID_ne_of_badChar bytes "9F 30 19 89" 'F' (by decide) (by decide) huid.symm

/-- C10 (witness): the character invariant at the scan of the bytes
0x9f 0x30 0x19 0x89 (which renders lowercase, so it differs from the table's
uppercase entry), and the matched "Abdalla Nassar" entry differing from the
"samy" entry. -/
theorem claim_C10_witness :
    lowerHexSpace '9' = true ∧
    renderUID [159, 48, 25, 137] ≠ "9F 30 19 89" ∧
    (⟨"Abdalla Nassar", "4 4a f5 6a 2c 59 80"⟩ : User) ≠ ⟨"samy", "9F 30 19 89"⟩ :=
  ⟨(claim_C10 [159, 48, 25, 137]).1 '9' (by decide),
   (claim_C10 [159, 48, 25, 137]).2.1,
   (claim_C10 [4, 74, 245, 106, 44, 89, 128]).2.2
     ⟨"Abdalla Nassar", "4 4a f5 6a 2c 59 80"⟩ (by decide)⟩

end AccessControl
